import Mathlib

/-!
Verification of the cart store (`src/components/events/hooks/useCart.ts`) and the
event-registration workflow (`src/components/events/components/EventDetailPage.tsx`,
`EventCard` in `src/components/events/components/PaymentModal.tsx` bundle) of the
ACN4.0 event platform, as a shallow embedding in Lean 4.

Prices and quantities are JavaScript numbers used only integrally here; they are
modelled as `Int`. The remote registrations table is modelled as a list of
`(event_id, user_id)` rows; a remote request either succeeds or fails, captured by
a `remoteOk : Bool` parameter threaded to each call site.
-/

namespace ACN

/-- Structure `CartItem` from `useCart.ts`: id, title, price, quantity plus denormalized
display metadata. -/
structure CartItem where
  id : String
  title : String
  price : Int
  quantity : Int
  image_url : Option String
  venue : Option String
  schedule : Option String
  deriving Repr, DecidableEq

/-- The fields of the `event` argument that `addToCart` reads. -/
structure EventInfo where
  id : String
  title : String
  image_url : Option String
  venue : Option String
  schedule : Option String
  deriving Repr, DecidableEq

/-- The new `CartItem` built in the `else` branch of `addToCart`. -/
def mkCartItem (event : EventInfo) (price : Int) : CartItem :=
  { id := event.id, title := event.title, price := price, quantity := 1,
    image_url := event.image_url, venue := event.venue, schedule := event.schedule }

/-- Function `addToCart(event, price)` from `useCart.ts`: if an item with `event.id` is
found, map over the list incrementing the quantity of every matching item;
otherwise append a fresh item with quantity 1 and the supplied price. -/
def addToCart (items : List CartItem) (event : EventInfo) (price : Int) :
    List CartItem :=
  match items.find? (fun item => item.id == event.id) with
  | some _ =>
      items.map (fun item =>
        if item.id == event.id then { item with quantity := item.quantity + 1 }
        else item)
  | none => items ++ [mkCartItem event price]

/-- Function `removeFromCart(id)`: keep the items whose id differs. -/
def removeFromCart (items : List CartItem) (id : String) : List CartItem :=
  items.filter (fun item => item.id != id)

/-- Function `updateQuantity(id, quantity)`: delegate to `removeFromCart` when
`quantity <= 0`, otherwise overwrite the quantity of every matching item. -/
def updateQuantity (items : List CartItem) (id : String) (quantity : Int) :
    List CartItem :=
  if quantity ≤ 0 then removeFromCart items id
  else
    items.map (fun item =>
      if item.id == id then { item with quantity := quantity } else item)

/-- Function `clearCart()`. -/
def clearCart (_items : List CartItem) : List CartItem := []

/-- Function `getTotalItems()`: left fold summing quantities from 0. -/
def getTotalItems (items : List CartItem) : Int :=
  items.foldl (fun total item => total + item.quantity) 0

/-- Function `getTotalPrice()`: left fold summing `price * quantity` from 0. -/
def getTotalPrice (items : List CartItem) : Int :=
  items.foldl (fun total item => total + item.price * item.quantity) 0

/-- Function `isInCart(id)`. -/
def isInCart (items : List CartItem) (id : String) : Bool :=
  items.any (fun item => item.id == id)

/-! ### Local-storage persistence of the cart

`useCart` seeds its state once from `localStorage.getItem('cart')` (an absent or
unparsable snapshot yields `[]`), and a `useEffect` keyed on `items` writes the
serialized list back under the key `cart` — but only when `items.length > 0`.
The stored snapshot is modelled by its parsed value, `Option (List CartItem)`
(`none` = no usable snapshot under the key `cart`). -/

/-- The `useState` initializer of `useCart`: parse the saved snapshot, default
to the empty cart. -/
def cartInit (storage : Option (List CartItem)) : List CartItem :=
  storage.getD []

/-- The persistence `useEffect` of `useCart`, run after `items` changes: write
the new list when it is non-empty, otherwise leave the stored snapshot as is. -/
def persistEffect (storage : Option (List CartItem)) (items : List CartItem) :
    Option (List CartItem) :=
  if items.length > 0 then some items else storage

/-- A cart mutation, one call of the four mutating operations of `useCart`. -/
inductive CartOp where
  | add (event : EventInfo) (price : Int)
  | remove (id : String)
  | update (id : String) (quantity : Int)
  | clear
  deriving Repr, DecidableEq

/-- Apply one mutation to the item list. -/
def applyOp (items : List CartItem) : CartOp → List CartItem
  | .add event price => addToCart items event price
  | .remove id => removeFromCart items id
  | .update id quantity => updateQuantity items id quantity
  | .clear => clearCart items

/-- One mutation of a session: the state update followed by the persistence
effect on the resulting list. The pair is (current items, stored snapshot). -/
def sessionStep (s : List CartItem × Option (List CartItem)) (op : CartOp) :
    List CartItem × Option (List CartItem) :=
  let items := applyOp s.1 op
  (items, persistEffect s.2 items)

/-- A whole browser session: seed the items once from the snapshot, then run a
sequence of mutations, persisting after each. -/
def runSession (storage : Option (List CartItem)) (ops : List CartOp) :
    List CartItem × Option (List CartItem) :=
  ops.foldl sessionStep (cartInit storage, storage)

/-! ### Registration workflow

The remote `registrations` table is a list of `(event_id, user_id)` rows.
A profile query either errors (`Except.error ()`, covering both a thrown error
and a missing row reported as an error by `.single()`) or returns the row.
Toasts are recorded by their `title` string exactly as in the source; remote
requests issued by a handler are recorded so that "no request / exactly one
request, no retry" is observable. -/

/-- A `profiles` row as read by `checkProfileComplete`; a `null` field is
modelled as the empty string (both are falsy in the source's
`profile.name && profile.phone && profile.rollno && profile.branch`). -/
structure Profile where
  name : String
  phone : String
  rollno : String
  branch : String
  deriving Repr, DecidableEq

/-- Remote requests a register handler can issue. -/
inductive Req where
  | profileSelect
  | regDelete
  | regInsert
  deriving Repr, DecidableEq

/-- A registration row: `(event_id, user_id)`. -/
abbrev RegRow := String × String

/-- Function `checkProfileComplete` (identical in `EventDetailPage` and `EventCard`):
false with no user, false when the profile query errors or the row is missing,
otherwise the conjunction of the truthiness of the four fields. -/
def checkProfileComplete (user : Option String)
    (fetchProfile : String → Except Unit Profile) : Bool :=
  match user with
  | none => false
  | some uid =>
    match fetchProfile uid with
    | .error _ => false
    | .ok profile =>
        profile.name != "" && profile.phone != "" &&
        profile.rollno != "" && profile.branch != ""

/-- Outcome of one handler run: the registrations table, the component's local
`isRegistered` flag, the toast titles emitted, and the remote requests issued. -/
structure CardResult where
  rows : List RegRow
  isRegistered : Bool
  toasts : List String
  requests : List Req
  deriving Repr, DecidableEq

/-- The delete issued on unregister: `.delete().eq('event_id', eid).eq('user_id', uid)`. -/
def deleteReg (rows : List RegRow) (eid uid : String) : List RegRow :=
  rows.filter (fun r => !(r.1 == eid && r.2 == uid))

/-- Function `EventCard.handleRegister`: login gate, profile gate, then toggle on the
local `isRegistered` flag — delete the row when registered, insert one row when
not. A failed remote request is caught and surfaced as one error toast,
leaving the row set and the local flag unchanged. -/
def cardHandleRegister (user : Option String)
    (fetchProfile : String → Except Unit Profile) (eid : String)
    (rows : List RegRow) (isRegistered : Bool) (remoteOk : Bool) : CardResult :=
  match user with
  | none => ⟨rows, isRegistered, ["Login Required"], []⟩
  | some uid =>
    if !checkProfileComplete (some uid) fetchProfile then
      ⟨rows, isRegistered, ["Profile Incomplete"], [.profileSelect]⟩
    else if isRegistered then
      if remoteOk then
        ⟨deleteReg rows eid uid, false, ["Unregistered"],
         [.profileSelect, .regDelete]⟩
      else
        ⟨rows, isRegistered, ["Registration Failed"],
         [.profileSelect, .regDelete]⟩
    else
      if remoteOk then
        ⟨rows ++ [(eid, uid)], true, ["Registration Successful!"],
         [.profileSelect, .regInsert]⟩
      else
        ⟨rows, isRegistered, ["Registration Failed"],
         [.profileSelect, .regInsert]⟩

/-- Outcome of a detail-page handler run: as `CardResult`, plus the
`showPaymentQR` flag. -/
structure DetailResult where
  rows : List RegRow
  isRegistered : Bool
  showPaymentQR : Bool
  toasts : List String
  requests : List Req
  deriving Repr, DecidableEq

/-- Function `EventDetailPage.handleRegister`: login gate, profile gate, then — when
registered — delete the row; when not registered it only opens the payment QR
modal (`generatePaymentQR`, assumed to render the QR successfully) and issues
no registration request. -/
def detailHandleRegister (user : Option String)
    (fetchProfile : String → Except Unit Profile) (eid : String)
    (rows : List RegRow) (isRegistered showPaymentQR : Bool)
    (remoteOk : Bool) : DetailResult :=
  match user with
  | none => ⟨rows, isRegistered, showPaymentQR, ["Login Required"], []⟩
  | some uid =>
    if !checkProfileComplete (some uid) fetchProfile then
      ⟨rows, isRegistered, showPaymentQR, ["Profile Incomplete"],
       [.profileSelect]⟩
    else if isRegistered then
      if remoteOk then
        ⟨deleteReg rows eid uid, false, showPaymentQR, ["Unregistered"],
         [.profileSelect, .regDelete]⟩
      else
        ⟨rows, isRegistered, showPaymentQR, ["Error"],
         [.profileSelect, .regDelete]⟩
    else
      ⟨rows, isRegistered, true, [], [.profileSelect]⟩

/-- Function `EventDetailPage.confirmPayment` (the "Payment Done" button): guard on user
and event id, then insert one registration row; a failed insert is caught and
surfaced as one error toast with no state change. -/
def confirmPayment (user : Option String) (eventId : Option String)
    (rows : List RegRow) (isRegistered showPaymentQR : Bool)
    (remoteOk : Bool) : DetailResult :=
  match user, eventId with
  | some uid, some eid =>
    if remoteOk then
      ⟨rows ++ [(eid, uid)], true, false, ["Registration Successful!"],
       [.regInsert]⟩
    else
      ⟨rows, isRegistered, showPaymentQR, ["Error"], [.regInsert]⟩
  | _, _ => ⟨rows, isRegistered, showPaymentQR, [], []⟩

/-- One full detail-page register interaction: run `handleRegister`; when it
opens the payment QR modal, the user presses "Payment Done", running
`confirmPayment`. Toasts and requests accumulate across the two steps. -/
def detailRegisterFlow (user : Option String)
    (fetchProfile : String → Except Unit Profile) (eid : String)
    (rows : List RegRow) (isRegistered : Bool) (remoteOk : Bool) :
    DetailResult :=
  let r := detailHandleRegister user fetchProfile eid rows isRegistered false
    remoteOk
  if r.showPaymentQR then
    let c := confirmPayment user (some eid) r.rows r.isRegistered
      r.showPaymentQR remoteOk
    ⟨c.rows, c.isRegistered, c.showPaymentQR, r.toasts ++ c.toasts,
     r.requests ++ c.requests⟩
  else r

/-! ### Concrete data reused by the witness theorems -/

/-- Cart of the spec scenario `[{id:"A",price:100,qty:1},{id:"B",price:50,qty:2}]`. -/
def demoCart : List CartItem :=
  [{ id := "A", title := "Event A", price := 100, quantity := 1,
     image_url := none, venue := none, schedule := none },
   { id := "B", title := "Event B", price := 50, quantity := 2,
     image_url := none, venue := none, schedule := none }]

/-- Event with the id `"A"` already present in `demoCart`. -/
def eventA : EventInfo :=
  { id := "A", title := "Event A", image_url := none, venue := none,
    schedule := none }

/-- Event with an id absent from `demoCart`. -/
def eventC : EventInfo :=
  { id := "C", title := "Event C", image_url := none, venue := none,
    schedule := none }

/-- Profile fetch that returns a complete profile for every user. -/
def completeFetch : String → Except Unit Profile :=
  fun _ => .ok { name := "N", phone := "9", rollno := "R", branch := "B" }

/-- Profile fetch that returns a profile with an empty name. -/
def incompleteFetch : String → Except Unit Profile :=
  fun _ => .ok { name := "", phone := "9", rollno := "R", branch := "B" }

/-! ### Helper lemmas about the cart operations -/

lemma foldl_add_map (f : CartItem → Int) (l : List CartItem) :
    ∀ a : Int, l.foldl (fun t it => t + f it) a = a + (l.map f).sum := by
  induction l with
  | nil => intro a; simp
  | cons it l ih => intro a; simp [ih, add_assoc]

lemma isInCart_false_iff (items : List CartItem) (id : String) :
    isInCart items id = false ↔ ∀ it ∈ items, it.id ≠ id := by
  simp [isInCart]

lemma isInCart_true_iff (items : List CartItem) (id : String) :
    isInCart items id = true ↔ ∃ it ∈ items, it.id = id := by
  simp [isInCart]

lemma addToCart_of_inCart (items : List CartItem) (e : EventInfo) (p : Int)
    (h : isInCart items e.id = true) :
    addToCart items e p =
      items.map (fun it =>
        if it.id == e.id then { it with quantity := it.quantity + 1 }
        else it) := by
  unfold addToCart
  cases hf : items.find? (fun item => item.id == e.id) with
  | some it => rfl
  | none =>
    exfalso
    rw [List.find?_eq_none] at hf
    obtain ⟨x, hx, hxe⟩ := (isInCart_true_iff items e.id).mp h
    exact absurd (by simpa using hxe) (hf x hx)

lemma addToCart_of_not_inCart (items : List CartItem) (e : EventInfo) (p : Int)
    (h : isInCart items e.id = false) :
    addToCart items e p = items ++ [mkCartItem e p] := by
  unfold addToCart
  have hf : items.find? (fun item => item.id == e.id) = none := by
    rw [List.find?_eq_none]
    intro x hx
    simpa using (isInCart_false_iff items e.id).mp h x hx
  rw [hf]

lemma map_bump_of_not_inCart (items : List CartItem) (eid : String)
    (h : ∀ it ∈ items, it.id ≠ eid) :
    items.map (fun it =>
      if it.id == eid then { it with quantity := it.quantity + 1 } else it) =
      items := by
  induction items with
  | nil => rfl
  | cons x l ih =>
    have hx : ¬((x.id == eid) = true) := by
      simpa using h x (List.mem_cons_self x l)
    rw [List.map_cons, if_neg hx,
      ih fun it hit => h it (List.mem_cons_of_mem x hit)]

/-- Claim C2: on every cart state — hence on every reachable one —
`getTotalItems` is the sum of all quantities and `getTotalPrice` is the sum of
`price * quantity`; on the concrete cart
`[{id:"A",price:100,qty:1},{id:"B",price:50,qty:2}]` they are 3 and 200. -/
theorem getTotals_spec :
    (∀ items : List CartItem,
      getTotalItems items = (items.map CartItem.quantity).sum ∧
      getTotalPrice items =
        (items.map (fun it => it.price * it.quantity)).sum) ∧
    getTotalItems demoCart = 3 ∧ getTotalPrice demoCart = 200 := by
  refine ⟨fun items => ⟨?_, ?_⟩, by decide, by decide⟩
  · simpa using foldl_add_map CartItem.quantity items 0
  · simpa using foldl_add_map (fun it => it.price * it.quantity) items 0

/-- Claim C1: `addToCart(e, p)` on a cart already holding the id `e.id`
keeps the length and pointwise increments the quantity of the matching item,
leaving every other item unchanged; on a cart without that id it appends
exactly the new item with quantity 1 and price `p`; two successive calls with
the same id starting without it yield one item with quantity 2. -/
theorem addToCart_increment_or_insert (items : List CartItem) (e : EventInfo)
    (p : Int) :
    (isInCart items e.id = true →
      (addToCart items e p).length = items.length ∧
      ∀ i : Nat, (addToCart items e p)[i]? =
        (items[i]?).map (fun it =>
          if it.id == e.id then { it with quantity := it.quantity + 1 }
          else it)) ∧
    (isInCart items e.id = false →
      addToCart items e p = items ++ [mkCartItem e p]) ∧
    (isInCart items e.id = false →
      addToCart (addToCart items e p) e p =
        items ++ [{ mkCartItem e p with quantity := 2 }]) := by
  refine ⟨fun h => ?_, fun h => addToCart_of_not_inCart items e p h, fun h => ?_⟩
  · rw [addToCart_of_inCart items e p h]
    exact ⟨List.length_map _ _, fun i => List.getElem?_map _ items i⟩
  · rw [addToCart_of_not_inCart items e p h]
    have hin : isInCart (items ++ [mkCartItem e p]) e.id = true := by
      rw [isInCart_true_iff]
      exact ⟨mkCartItem e p, by simp, rfl⟩
    rw [addToCart_of_inCart _ e p hin, List.map_append,
      map_bump_of_not_inCart items e.id ((isInCart_false_iff items e.id).mp h)]
    simp [mkCartItem]

/-- Witness for C1 at the concrete carts `demoCart` (id `"A"` present) and
`[]` (id `"A"` absent). -/
theorem addToCart_increment_or_insert_witness :
    ((addToCart demoCart eventA 100).length = demoCart.length ∧
      ∀ i : Nat, (addToCart demoCart eventA 100)[i]? =
        (demoCart[i]?).map (fun it =>
          if it.id == eventA.id then { it with quantity := it.quantity + 1 }
          else it)) ∧
    addToCart [] eventA 100 = [mkCartItem eventA 100] ∧
    addToCart (addToCart [] eventA 100) eventA 100 =
      [{ mkCartItem eventA 100 with quantity := 2 }] :=
  ⟨(addToCart_increment_or_insert demoCart eventA 100).1 (by decide),
   (addToCart_increment_or_insert [] eventA 100).2.1 (by decide),
   (addToCart_increment_or_insert [] eventA 100).2.2 (by decide)⟩

/-- Claim C3: `updateQuantity(id, n)` with `n ≤ 0` is exactly
`removeFromCart(id)`; with `n ≥ 1` it keeps the length and pointwise sets the
quantity of the matching item to `n`, leaving every other item unchanged; after
`updateQuantity(id, 0)` the item is gone and `isInCart(id)` is false. -/
theorem updateQuantity_spec (items : List CartItem) (id : String) (n : Int) :
    (n ≤ 0 → updateQuantity items id n = removeFromCart items id) ∧
    (1 ≤ n →
      (updateQuantity items id n).length = items.length ∧
      ∀ i : Nat, (updateQuantity items id n)[i]? =
        (items[i]?).map (fun it =>
          if it.id == id then { it with quantity := n } else it)) ∧
    (updateQuantity items id 0 = removeFromCart items id ∧
      isInCart (updateQuantity items id 0) id = false) := by
  refine ⟨fun h => by rw [updateQuantity, if_pos h], fun h => ?_, ?_, ?_⟩
  · rw [updateQuantity, if_neg (by omega)]
    exact ⟨List.length_map _ _, fun i => List.getElem?_map _ items i⟩
  · rw [updateQuantity, if_pos le_rfl]
  · rw [updateQuantity, if_pos le_rfl, isInCart_false_iff]
    intro it hit
    have := List.of_mem_filter hit
    simpa using this

/-- Witness for C3 at `demoCart` with id `"A"`, `n = 0` and `n = 5`. -/
theorem updateQuantity_spec_witness :
    updateQuantity demoCart "A" 0 = removeFromCart demoCart "A" ∧
    ((updateQuantity demoCart "A" 5).length = demoCart.length ∧
      ∀ i : Nat, (updateQuantity demoCart "A" 5)[i]? =
        (demoCart[i]?).map (fun it =>
          if it.id == "A" then { it with quantity := 5 } else it)) ∧
    isInCart (updateQuantity demoCart "A" 0) "A" = false :=
  ⟨(updateQuantity_spec demoCart "A" 0).1 (by decide),
   (updateQuantity_spec demoCart "A" 5).2.1 (by decide),
   (updateQuantity_spec demoCart "A" 0).2.2.2⟩

/-- Invariant of claim C4: every quantity in the cart is positive. -/
def posQuantities (items : List CartItem) : Prop :=
  ∀ it ∈ items, 0 < it.quantity

instance (items : List CartItem) : Decidable (posQuantities items) :=
  List.decidableBAll _ items

/-- Claim C4: all four cart mutations preserve positivity of every quantity;
in particular no operation leaves a zero-or-negative-quantity item behind. -/
theorem cart_quantity_invariant (items : List CartItem)
    (h : posQuantities items) :
    (∀ (e : EventInfo) (p : Int), posQuantities (addToCart items e p)) ∧
    (∀ id : String, posQuantities (removeFromCart items id)) ∧
    (∀ (id : String) (n : Int), posQuantities (updateQuantity items id n)) ∧
    posQuantities (clearCart items) := by
  refine ⟨fun e p it hit => ?_, fun id it hit => ?_, fun id n it hit => ?_,
    fun it hit => absurd hit (List.not_mem_nil it)⟩
  · rcases hc : isInCart items e.id with _ | _
    · rw [addToCart_of_not_inCart items e p hc] at hit
      rcases List.mem_append.mp hit with hmem | hmem
      · exact h it hmem
      · simp only [List.mem_singleton] at hmem
        rw [hmem]
        exact Int.zero_lt_one
    · rw [addToCart_of_inCart items e p hc] at hit
      obtain ⟨src, hsrc, hmap⟩ := List.mem_map.mp hit
      by_cases hid : (src.id == e.id) = true
      · rw [if_pos hid] at hmap
        rw [← hmap]
        have := h src hsrc
        simp only []
        omega
      · rw [if_neg hid] at hmap
        rw [← hmap]
        exact h src hsrc
  · exact h it (List.mem_of_mem_filter hit)
  · rw [updateQuantity] at hit
    by_cases hn : n ≤ 0
    · rw [if_pos hn] at hit
      exact h it (List.mem_of_mem_filter hit)
    · rw [if_neg hn] at hit
      obtain ⟨src, hsrc, hmap⟩ := List.mem_map.mp hit
      by_cases hid : (src.id == id) = true
      · rw [if_pos hid] at hmap
        rw [← hmap]
        simp only []
        omega
      · rw [if_neg hid] at hmap
        rw [← hmap]
        exact h src hsrc

/-- Witness for C4 at `demoCart` (all quantities positive). -/
theorem cart_quantity_invariant_witness :
    posQuantities demoCart ∧
    posQuantities (addToCart demoCart eventC 100) ∧
    posQuantities (updateQuantity demoCart "B" 0) :=
  ⟨by decide,
   (cart_quantity_invariant demoCart (by decide)).1 eventC 100,
   (cart_quantity_invariant demoCart (by decide)).2.2.1 "B" 0⟩

/-- Claim C10: when the id is already in the cart, the supplied price argument
is irrelevant to `addToCart` — the stored unit prices, ids, and titles of all
items are unchanged, and every item with a different id is wholly unchanged. -/
theorem addToCart_price_frame (items : List CartItem) (e : EventInfo)
    (p q : Int) (h : isInCart items e.id = true) :
    addToCart items e p = addToCart items e q ∧
    (∀ i : Nat, ((addToCart items e p)[i]?).map CartItem.price =
      (items[i]?).map CartItem.price) ∧
    (∀ i : Nat, ((addToCart items e p)[i]?).map CartItem.id =
      (items[i]?).map CartItem.id) ∧
    (∀ i : Nat, ((addToCart items e p)[i]?).map CartItem.title =
      (items[i]?).map CartItem.title) ∧
    (∀ (i : Nat) (it : CartItem), items[i]? = some it → it.id ≠ e.id →
      (addToCart items e p)[i]? = some it) := by
  have hmap := addToCart_of_inCart items e p h
  have hget : ∀ i : Nat, (addToCart items e p)[i]? =
      (items[i]?).map (fun it =>
        if it.id == e.id then { it with quantity := it.quantity + 1 }
        else it) := by
    intro i
    rw [hmap]
    exact List.getElem?_map _ items i
  refine ⟨by rw [hmap, addToCart_of_inCart items e q h], ?_, ?_, ?_, ?_⟩
  · intro i
    rw [hget i]
    cases items[i]? with
    | none => rfl
    | some it =>
      show some (if it.id == e.id then
        { it with quantity := it.quantity + 1 } else it).price = some it.price
      split
      · rfl
      · rfl
  · intro i
    rw [hget i]
    cases items[i]? with
    | none => rfl
    | some it =>
      show some (if it.id == e.id then
        { it with quantity := it.quantity + 1 } else it).id = some it.id
      split
      · rfl
      · rfl
  · intro i
    rw [hget i]
    cases items[i]? with
    | none => rfl
    | some it =>
      show some (if it.id == e.id then
        { it with quantity := it.quantity + 1 } else it).title = some it.title
      split
      · rfl
      · rfl
  · intro i it hit hne
    rw [hget i, hit]
    show some (if it.id == e.id then
      { it with quantity := it.quantity + 1 } else it) = some it
    rw [if_neg (by simpa using hne)]

/-- Witness for C10 at `demoCart` with event id `"A"` and prices 100 vs 999. -/
theorem addToCart_price_frame_witness :
    addToCart demoCart eventA 100 = addToCart demoCart eventA 999 ∧
    ((addToCart demoCart eventA 100)[0]?).map CartItem.price =
      ((demoCart[0]?).map CartItem.price) ∧
    ((addToCart demoCart eventA 100)[1]?).map CartItem.price =
      ((demoCart[1]?).map CartItem.price) :=
  ⟨(addToCart_price_frame demoCart eventA 100 999 (by decide)).1,
   (addToCart_price_frame demoCart eventA 100 999 (by decide)).2.1 0,
   (addToCart_price_frame demoCart eventA 100 999 (by decide)).2.1 1⟩

/-! ### Persistence (claim C5) -/

lemma sessionStep_write (s : List CartItem × Option (List CartItem))
    (op : CartOp) (h : (sessionStep s op).1 ≠ []) :
    (sessionStep s op).2 = some (sessionStep s op).1 := by
  have h1 : (sessionStep s op).1 = applyOp s.1 op := rfl
  have h2 : (sessionStep s op).2 = persistEffect s.2 (applyOp s.1 op) := rfl
  rw [h1] at h
  rw [h1, h2]
  unfold persistEffect
  rw [if_pos (List.length_pos.mpr h)]

lemma runSession_inv (ops : List CartOp) :
    ∀ s : List CartItem × Option (List CartItem),
      (s.1 ≠ [] → s.2 = some s.1) →
      ((ops.foldl sessionStep s).1 ≠ [] →
        (ops.foldl sessionStep s).2 = some (ops.foldl sessionStep s).1) := by
  induction ops with
  | nil => intro s hs; exact hs
  | cons op ops ih =>
    intro s _
    rw [List.foldl_cons]
    exact ih (sessionStep s op) (sessionStep_write s op)

/-- Claim C5: the stored snapshot seeds the cart exactly at session start
(`cartInit`); each mutation with a non-empty result writes the new item list to
the `cart` key, while a mutation with an empty result — like `clearCart` on a
non-empty cart — leaves the previously stored snapshot untouched; hence after
any session, a non-empty current cart is always what is stored. -/
theorem cart_persistence_spec :
    (∀ saved : List CartItem, cartInit (some saved) = saved) ∧
    cartInit none = [] ∧
    (∀ storage : Option (List CartItem), runSession storage [] =
      (cartInit storage, storage)) ∧
    (∀ (s : List CartItem × Option (List CartItem)) (op : CartOp),
      (sessionStep s op).1 ≠ [] →
        (sessionStep s op).2 = some (sessionStep s op).1) ∧
    (∀ (s : List CartItem × Option (List CartItem)) (op : CartOp),
      (sessionStep s op).1 = [] → (sessionStep s op).2 = s.2) ∧
    (∀ (storage : Option (List CartItem)) (ops : List CartOp),
      (runSession storage ops).1 ≠ [] →
        (runSession storage ops).2 = some (runSession storage ops).1) ∧
    (∀ (storage : Option (List CartItem)) (items : List CartItem),
      items ≠ [] → persistEffect storage (clearCart items) = storage) := by
  refine ⟨fun saved => rfl, rfl, fun storage => rfl, sessionStep_write,
    fun s op h => ?_, fun storage ops => ?_, fun storage items _ => rfl⟩
  · have h1 : (sessionStep s op).1 = applyOp s.1 op := rfl
    have h2 : (sessionStep s op).2 = persistEffect s.2 (applyOp s.1 op) := rfl
    rw [h1] at h
    rw [h2]
    unfold persistEffect
    rw [if_neg]
    simp [h]
  · refine runSession_inv ops (cartInit storage, storage) ?_
    intro h1
    cases storage with
    | none => exact absurd rfl h1
    | some saved => rfl

/-- Witness for C5: a session over an empty initial storage that adds an item
(written), then clears the cart (previous snapshot kept). -/
theorem cart_persistence_spec_witness :
    (sessionStep ([], none) (.add eventA 100)).1 ≠ [] ∧
    (sessionStep ([], none) (.add eventA 100)).2 =
      some (sessionStep ([], none) (.add eventA 100)).1 ∧
    (sessionStep ([mkCartItem eventA 100], some [mkCartItem eventA 100])
      .clear).1 = [] ∧
    (sessionStep ([mkCartItem eventA 100], some [mkCartItem eventA 100])
      .clear).2 = some [mkCartItem eventA 100] ∧
    (runSession none [.add eventA 100]).1 ≠ [] ∧
    (runSession none [.add eventA 100]).2 =
      some (runSession none [.add eventA 100]).1 ∧
    persistEffect (some [mkCartItem eventA 100])
      (clearCart [mkCartItem eventA 100]) = some [mkCartItem eventA 100] :=
  ⟨by decide,
   (cart_persistence_spec.2.2.2.1 ([], none) (.add eventA 100)) (by decide),
   by decide,
   (cart_persistence_spec.2.2.2.2.1
     ([mkCartItem eventA 100], some [mkCartItem eventA 100]) .clear)
     (by decide),
   by decide,
   (cart_persistence_spec.2.2.2.2.2.1 none [.add eventA 100]) (by decide),
   (cart_persistence_spec.2.2.2.2.2.2 (some [mkCartItem eventA 100])
     [mkCartItem eventA 100]) (by decide)⟩

/-! ### Registration workflow lemmas -/

lemma deleteReg_not_mem (rows : List RegRow) (eid uid : String) :
    (eid, uid) ∉ deleteReg rows eid uid := by
  intro hmem
  have := List.of_mem_filter hmem
  simp at this

lemma deleteReg_append_self (rows : List RegRow) (eid uid : String)
    (h : (eid, uid) ∉ rows) :
    deleteReg (rows ++ [(eid, uid)]) eid uid = rows := by
  unfold deleteReg
  rw [List.filter_append]
  have h2 : List.filter (fun r => !(r.1 == eid && r.2 == uid)) [(eid, uid)]
      = [] := by simp
  rw [h2, List.append_nil]
  rw [List.filter_eq_self]
  intro r hr
  have hne : r ≠ (eid, uid) := fun heq => h (heq ▸ hr)
  rcases r with ⟨a, b⟩
  by_cases ha : a = eid
  · by_cases hb : b = uid
    · exact absurd (by rw [ha, hb]) hne
    · simp [hb]
  · simp [ha]

/-- One register button press on an `EventCard` with a successful remote call,
viewed as a step on the pair (registration rows, local `isRegistered` flag). -/
def cardRegisterStep (fetch : String → Except Unit Profile) (uid eid : String)
    (s : List RegRow × Bool) : List RegRow × Bool :=
  let r := cardHandleRegister (some uid) fetch eid s.1 s.2 true
  (r.rows, r.isRegistered)

/-- Claim C6: for an authenticated user with a complete profile and a local
flag in sync with the store, registering is a pure toggle: with the flag set
the row is deleted and the final state is unregistered; with the flag clear
exactly one row is appended and the final state is registered — on the card
path and on the detail-page path (where the insert goes through the payment
modal); three consecutive presses starting from no prior row end registered
with exactly one row. -/
theorem register_toggle_spec (uid eid : String) (rows : List RegRow)
    (fetch : String → Except Unit Profile)
    (hp : checkProfileComplete (some uid) fetch = true) :
    ((cardHandleRegister (some uid) fetch eid rows true true).rows =
        deleteReg rows eid uid ∧
      (eid, uid) ∉ (cardHandleRegister (some uid) fetch eid rows true
        true).rows ∧
      (cardHandleRegister (some uid) fetch eid rows true
        true).isRegistered = false) ∧
    ((cardHandleRegister (some uid) fetch eid rows false true).rows =
        rows ++ [(eid, uid)] ∧
      (cardHandleRegister (some uid) fetch eid rows false
        true).isRegistered = true) ∧
    ((detailRegisterFlow (some uid) fetch eid rows true true).rows =
        deleteReg rows eid uid ∧
      (detailRegisterFlow (some uid) fetch eid rows true
        true).isRegistered = false) ∧
    ((detailRegisterFlow (some uid) fetch eid rows false true).rows =
        rows ++ [(eid, uid)] ∧
      (detailRegisterFlow (some uid) fetch eid rows false
        true).isRegistered = true) ∧
    ((eid, uid) ∉ rows →
      cardRegisterStep fetch uid eid (cardRegisterStep fetch uid eid
        (cardRegisterStep fetch uid eid (rows, false))) =
        (rows ++ [(eid, uid)], true) ∧
      (rows ++ [(eid, uid)]).count (eid, uid) = 1) := by
  have hstep1 : cardRegisterStep fetch uid eid (rows, false) =
      (rows ++ [(eid, uid)], true) := by
    unfold cardRegisterStep
    simp [cardHandleRegister, hp]
  refine ⟨?_, ?_, ?_, ?_, fun habs => ?_⟩
  · refine ⟨by simp [cardHandleRegister, hp], ?_, by simp [cardHandleRegister, hp]⟩
    have hr : (cardHandleRegister (some uid) fetch eid rows true true).rows =
        deleteReg rows eid uid := by simp [cardHandleRegister, hp]
    rw [hr]
    exact deleteReg_not_mem rows eid uid
  · exact ⟨by simp [cardHandleRegister, hp], by simp [cardHandleRegister, hp]⟩
  · constructor <;>
      simp [detailRegisterFlow, detailHandleRegister, confirmPayment, hp]
  · constructor <;>
      simp [detailRegisterFlow, detailHandleRegister, confirmPayment, hp]
  · have hstep2 : cardRegisterStep fetch uid eid (rows ++ [(eid, uid)], true) =
        (rows, false) := by
      unfold cardRegisterStep
      simp only [cardHandleRegister, hp, Bool.not_true, Bool.false_eq_true,
        if_false, if_true]
      rw [deleteReg_append_self rows eid uid habs]
    refine ⟨by rw [hstep1, hstep2, hstep1], ?_⟩
    rw [List.count_append]
    rw [List.count_eq_zero.mpr habs]
    simp

/-- Witness for C6: user `"u"` with a complete profile toggling event `"e"`
three times starting from an empty registrations table. -/
theorem register_toggle_spec_witness :
    (cardHandleRegister (some "u") completeFetch "e" [] false true).rows =
      [] ++ [("e", "u")] ∧
    cardRegisterStep completeFetch "u" "e" (cardRegisterStep completeFetch "u"
      "e" (cardRegisterStep completeFetch "u" "e" ([], false))) =
      ([] ++ [("e", "u")], true) ∧
    ([] ++ [("e", "u")]).count ("e", "u") = 1 :=
  ⟨(register_toggle_spec "u" "e" [] completeFetch (by decide)).2.1.1,
   ((register_toggle_spec "u" "e" [] completeFetch (by decide)).2.2.2.2
     (by decide)).1,
   ((register_toggle_spec "u" "e" [] completeFetch (by decide)).2.2.2.2
     (by decide)).2⟩

/-- Claim C7: with no authenticated user every register entry point returns
immediately: exactly one "Login Required" toast, no remote request at all, and
the rows and the local flag are untouched — on the card path and on the
detail-page path alike. -/
theorem register_auth_gate_spec (fetch : String → Except Unit Profile)
    (eid : String) (rows : List RegRow) (isRegistered showQR remoteOk : Bool) :
    cardHandleRegister none fetch eid rows isRegistered remoteOk =
      ⟨rows, isRegistered, ["Login Required"], []⟩ ∧
    detailHandleRegister none fetch eid rows isRegistered showQR remoteOk =
      ⟨rows, isRegistered, showQR, ["Login Required"], []⟩ ∧
    (cardHandleRegister none fetch eid rows isRegistered
      remoteOk).toasts.length = 1 ∧
    (cardHandleRegister none fetch eid rows isRegistered remoteOk).requests
      = [] ∧
    (detailHandleRegister none fetch eid rows isRegistered showQR
      remoteOk).requests = [] :=
  ⟨rfl, rfl, rfl, rfl, rfl⟩

/-- Claim C8: `checkProfileComplete` is true exactly when the profile query
returns a row whose name, phone, roll number and branch are all non-empty
(false with no user, on a query error, or on a missing row); when it is false
for an authenticated user, both register entry points emit exactly one
"Profile Incomplete" toast and issue no registration insert or delete. -/
theorem profile_gate_spec (uid : String)
    (fetch : String → Except Unit Profile) (eid : String)
    (rows : List RegRow) (isRegistered showQR remoteOk : Bool) :
    (checkProfileComplete (some uid) fetch = true ↔
      ∃ p : Profile, fetch uid = .ok p ∧ p.name ≠ "" ∧ p.phone ≠ "" ∧
        p.rollno ≠ "" ∧ p.branch ≠ "") ∧
    checkProfileComplete none fetch = false ∧
    (checkProfileComplete (some uid) fetch = false →
      cardHandleRegister (some uid) fetch eid rows isRegistered remoteOk =
        ⟨rows, isRegistered, ["Profile Incomplete"], [.profileSelect]⟩ ∧
      detailHandleRegister (some uid) fetch eid rows isRegistered showQR
        remoteOk =
        ⟨rows, isRegistered, showQR, ["Profile Incomplete"],
          [.profileSelect]⟩) := by
  refine ⟨?_, rfl, fun hq => ⟨?_, ?_⟩⟩
  · cases hfetch : fetch uid with
    | error e =>
      have hc : checkProfileComplete (some uid) fetch = false := by
        simp only [checkProfileComplete]
        rw [hfetch]
      rw [hc]
      simp [hfetch]
    | ok p =>
      have hc : checkProfileComplete (some uid) fetch =
          (p.name != "" && p.phone != "" && p.rollno != "" &&
            p.branch != "") := by
        simp only [checkProfileComplete]
        rw [hfetch]
      rw [hc]
      simp [hfetch, and_assoc]
  · simp [cardHandleRegister, hq]
  · simp [detailHandleRegister, hq]

/-- Witness for C8: the profile with an empty name is rejected with one
"Profile Incomplete" toast and only the profile query issued. -/
theorem profile_gate_spec_witness :
    cardHandleRegister (some "u") incompleteFetch "e" [] false true =
      ⟨[], false, ["Profile Incomplete"], [.profileSelect]⟩ ∧
    detailHandleRegister (some "u") incompleteFetch "e" [] false false true =
      ⟨[], false, false, ["Profile Incomplete"], [.profileSelect]⟩ :=
  ⟨((profile_gate_spec "u" incompleteFetch "e" [] false false true).2.2
     (by decide)).1,
   ((profile_gate_spec "u" incompleteFetch "e" [] false false true).2.2
     (by decide)).2⟩

/-- Claim C9: when the remote request fails, every registration call site
catches the error and emits exactly one error toast ("Registration Failed" on
the card, "Error" on the detail page), issues exactly one registration request
(no retry), and leaves the rows and the local registered flag unchanged. -/
theorem remote_failure_spec (uid : String)
    (fetch : String → Except Unit Profile) (eid : String)
    (rows : List RegRow) (isRegistered showQR : Bool)
    (hp : checkProfileComplete (some uid) fetch = true) :
    cardHandleRegister (some uid) fetch eid rows true false =
      ⟨rows, true, ["Registration Failed"], [.profileSelect, .regDelete]⟩ ∧
    cardHandleRegister (some uid) fetch eid rows false false =
      ⟨rows, false, ["Registration Failed"], [.profileSelect, .regInsert]⟩ ∧
    detailHandleRegister (some uid) fetch eid rows true showQR false =
      ⟨rows, true, showQR, ["Error"], [.profileSelect, .regDelete]⟩ ∧
    confirmPayment (some uid) (some eid) rows isRegistered showQR false =
      ⟨rows, isRegistered, showQR, ["Error"], [.regInsert]⟩ := by
  refine ⟨?_, ?_, ?_, rfl⟩
  · simp [cardHandleRegister, hp]
  · simp [cardHandleRegister, hp]
  · simp [detailHandleRegister, hp]

/-- Witness for C9: the failing remote call for user `"u"` on event `"e"`. -/
theorem remote_failure_spec_witness :
    cardHandleRegister (some "u") completeFetch "e" [("e", "u")] true false =
      ⟨[("e", "u")], true, ["Registration Failed"],
        [.profileSelect, .regDelete]⟩ ∧
    confirmPayment (some "u") (some "e") [] false true false =
      ⟨[], false, true, ["Error"], [.regInsert]⟩ :=
  ⟨(remote_failure_spec "u" completeFetch "e" [("e", "u")] false true
     (by decide)).1,
   (remote_failure_spec "u" completeFetch "e" [] false true
     (by decide)).2.2.2⟩

end ACN
